import Mathlib

/-!
Verification development for the vade-evan credential core.

The Lean definitions below are a shallow embedding of the Rust sources:

* `src/helpers/credential_merge_with_pr33_later_on.rs` — canonicalization and
  verification pipeline (`convert_to_nquads`, `get_issuer_public_key`,
  `verify_proof_signature`, `verify_credential`);
* `src/crypto/crypto_issuer.rs` — credential definition and revocation engine
  (`create_credential_definition`, `sign_credential`,
  `sign_credential_with_revocation`);
* `src/resolver/mod.rs` — DID document lifecycle (`set_did_document`).

External collaborators (serde_json parsing, the JSON-LD canonicalizer, the
bbs/ursa signature schemes, the substrate ledger) are not part of the
repository sources; where a definition models such a collaborator it carries a
doc comment saying what is modelled and from where.  JSON documents are
modelled by a tree whose objects are canonically sorted by key, so that two
documents differing only in member order or whitespace parse to the same tree,
exactly as serde_json's map-backed `Value` behaves.
-/

deriving instance DecidableEq for Except

set_option maxRecDepth 100000

namespace VadeEvan

/- JSON value tree. Object fields are kept sorted by key with duplicates
resolved last-wins, mirroring serde_json's `BTreeMap`-backed `Value`. -/
mutual
inductive Json where
  | null : Json
  | bool (b : Bool) : Json
  | num (n : Int) : Json
  | str (s : String) : Json
  | arr (elems : JsonList) : Json
  | obj (fields : JsonFields) : Json
  deriving Repr, DecidableEq

inductive JsonList where
  | nil : JsonList
  | cons (hd : Json) (tl : JsonList) : JsonList
  deriving Repr, DecidableEq

inductive JsonFields where
  | nil : JsonFields
  | cons (key : String) (value : Json) (tl : JsonFields) : JsonFields
  deriving Repr, DecidableEq
end

/-- Opening curly brace character. -/
def lbrace : Char := Char.ofNat 123

/-- Closing curly brace character. -/
def rbrace : Char := Char.ofNat 125

/-- Byte-wise (code-point-wise) strict ordering on character lists. -/
def charListLt : List Char → List Char → Bool
  | [], [] => false
  | [], _ :: _ => true
  | _ :: _, [] => false
  | c :: cs, d :: ds =>
    if c.toNat < d.toNat then true
    else if d.toNat < c.toNat then false
    else charListLt cs ds

/-- Code-point-wise strict ordering on strings. -/
def strLt (a b : String) : Bool := charListLt a.data b.data

/-- Insert a field into a key-sorted field list, replacing an existing entry
with the same key (serde_json: later duplicate keys win). -/
def insertFieldSorted (k : String) (v : Json) : JsonFields → JsonFields
  | .nil => .cons k v .nil
  | .cons k2 v2 fs =>
    if k = k2 then .cons k v fs
    else if strLt k k2 then .cons k v (.cons k2 v2 fs)
    else .cons k2 v2 (insertFieldSorted k v fs)

/-- Re-sort a field list into canonical (sorted, deduplicated) form. -/
def canonicalFields : JsonFields → JsonFields
  | .nil => .nil
  | .cons k v fs => insertFieldSorted k v (canonicalFields fs)

/-- Field lookup on an object's field list. -/
def JsonFields.lookupField (k : String) : JsonFields → Option Json
  | .nil => none
  | .cons k2 v fs => if k2 = k then some v else JsonFields.lookupField k fs

/-- Remove a field from a field list; models `Map::remove` on a parsed
serde_json object (`parsed_credential.remove("proof")`). -/
def JsonFields.removeField (k : String) : JsonFields → JsonFields
  | .nil => .nil
  | .cons k2 v fs =>
    if k2 = k then JsonFields.removeField k fs
    else .cons k2 v (JsonFields.removeField k fs)

/-- Models `serde_json::Value::get(key)`: field access that yields `None` on
non-objects and missing keys. -/
def Json.getField (j : Json) (k : String) : Option Json :=
  match j with
  | .obj fs => fs.lookupField k
  | _ => none

/-- Whitespace skipping for the JSON parser. -/
def skipWs : List Char → List Char
  | [] => []
  | c :: cs => if c = ' ' ∨ c = '\n' ∨ c = '\t' ∨ c = '\r' then skipWs cs else c :: cs

/-- Parse the body of a JSON string literal (after the opening quote) up to the
closing quote. The model rejects escape sequences; all documents handled by
the claims are escape-free. -/
def parseStringBody : List Char → Option (String × List Char)
  | [] => none
  | c :: cs =>
    if c = '\"' then some ("", cs)
    else if c = '\\' then none
    else match parseStringBody cs with
      | some (s, rest) => some (String.mk (c :: s.data), rest)
      | none => none

/-- Numeric value of a decimal digit character. -/
def digitVal (c : Char) : Option Nat :=
  if '0' ≤ c ∧ c ≤ '9' then some (c.toNat - '0'.toNat) else none

/-- Consume a maximal run of decimal digits, accumulating their value. -/
def parseDigits : List Char → Nat → Option (Nat × List Char)
  | [], acc => some (acc, [])
  | c :: cs, acc =>
    match digitVal c with
    | some d => parseDigits cs (acc * 10 + d)
    | none => some (acc, c :: cs)

/-- Parse a JSON number. The model restricts numerals to (optionally signed)
integers; no claim involves fractional numbers. -/
def parseNumber (cs : List Char) : Option (Json × List Char) :=
  match cs with
  | '-' :: c :: rest =>
    match digitVal c with
    | some d => (parseDigits rest d).map (fun p => (Json.num (-(p.1 : Int)), p.2))
    | none => none
  | c :: rest =>
    match digitVal c with
    | some d => (parseDigits rest d).map (fun p => (Json.num (p.1 : Int), p.2))
    | none => none
  | [] => none

/- Fuel-indexed recursive-descent JSON parser; models `serde_json::from_str`
(object member order and surrounding whitespace are erased by construction,
as with serde_json's map-backed `Value`). -/
mutual
def parseVal : Nat → List Char → Option (Json × List Char)
  | 0, _ => none
  | fuel + 1, cs =>
    match skipWs cs with
    | [] => none
    | c :: rest =>
      if c = '\"' then (parseStringBody rest).map (fun p => (Json.str p.1, p.2))
      else if c = 't' then
        match rest with
        | 'r' :: 'u' :: 'e' :: r => some (Json.bool true, r)
        | _ => none
      else if c = 'f' then
        match rest with
        | 'a' :: 'l' :: 's' :: 'e' :: r => some (Json.bool false, r)
        | _ => none
      else if c = 'n' then
        match rest with
        | 'u' :: 'l' :: 'l' :: r => some (Json.null, r)
        | _ => none
      else if c = '[' then
        match skipWs rest with
        | ']' :: r => some (Json.arr .nil, r)
        | r2 => (parseArrElems fuel r2).map (fun p => (Json.arr p.1, p.2))
      else if c = lbrace then
        match skipWs rest with
        | r2 =>
          if r2.headD ' ' = rbrace then some (Json.obj .nil, r2.tail)
          else (parseObjMembers fuel r2).map (fun p => (Json.obj (canonicalFields p.1), p.2))
      else parseNumber (c :: rest)

def parseArrElems : Nat → List Char → Option (JsonList × List Char)
  | 0, _ => none
  | fuel + 1, cs =>
    match parseVal fuel cs with
    | none => none
    | some (v, rest) =>
      match skipWs rest with
      | ',' :: r => (parseArrElems fuel r).map (fun p => (JsonList.cons v p.1, p.2))
      | ']' :: r => some (JsonList.cons v .nil, r)
      | _ => none

def parseObjMembers : Nat → List Char → Option (JsonFields × List Char)
  | 0, _ => none
  | fuel + 1, cs =>
    match skipWs cs with
    | '\"' :: r =>
      match parseStringBody r with
      | none => none
      | some (k, r2) =>
        match skipWs r2 with
        | ':' :: r3 =>
          match parseVal fuel r3 with
          | none => none
          | some (v, r4) =>
            match skipWs r4 with
            | ',' :: r5 => (parseObjMembers fuel r5).map (fun p => (JsonFields.cons k v p.1, p.2))
            | c :: r5 => if c = rbrace then some (JsonFields.cons k v .nil, r5) else none
            | _ => none
        | _ => none
    | _ => none
end

/-- Parse a complete JSON document; trailing content other than whitespace is
rejected, as by `serde_json::from_str`. -/
def jsonParse (s : String) : Option Json :=
  match parseVal (s.length + 4) s.data with
  | some (j, rest) => if skipWs rest = [] then some j else none
  | none => none

/- Serializer for canonical `Json` values; models `serde_json::to_string` on a
`BTreeMap`-backed value (fields emitted in sorted key order). Strings are
emitted without escaping; all documents handled by the claims are
escape-free. -/
mutual
def serializeJson : Json → String
  | .null => "null"
  | .bool b => if b then "true" else "false"
  | .num n => toString n
  | .str s => "\"" ++ s ++ "\""
  | .arr xs => "[" ++ serializeJsonList xs ++ "]"
  | .obj fs => String.mk [lbrace] ++ serializeJsonFields fs ++ String.mk [rbrace]

def serializeJsonList : JsonList → String
  | .nil => ""
  | .cons x .nil => serializeJson x
  | .cons x (.cons y tl) => serializeJson x ++ "," ++ serializeJsonList (.cons y tl)

def serializeJsonFields : JsonFields → String
  | .nil => ""
  | .cons k v .nil => "\"" ++ k ++ "\":" ++ serializeJson v
  | .cons k v (.cons k2 v2 tl) =>
    "\"" ++ k ++ "\":" ++ serializeJson v ++ "," ++ serializeJsonFields (.cons k2 v2 tl)
end

/- Modelled from the spec: the JSON-LD expansion and URDNA2015 normalization
performed by the external `ssi` crate (`json_to_dataset` followed by
`normalize` and `to_nquads`), which §6 specifies as a collaborator contract
"deterministic normalize(document) → n-quads". The model emits one statement
line per leaf of the parsed document, keyed by its canonical path, and an
empty line for each `null` leaf; it is a deterministic function of the parsed
JSON tree, which is the whole §6 contract. -/
mutual
def jsonStatements (path : String) : Json → List String
  | .null => [""]
  | .bool b => [path ++ " " ++ (if b then "true" else "false") ++ " ."]
  | .num n => [path ++ " " ++ toString n ++ " ."]
  | .str s => [path ++ " " ++ s ++ " ."]
  | .arr xs => jsonStatementsList path 0 xs
  | .obj fs => jsonStatementsFields path fs

def jsonStatementsList (path : String) (i : Nat) : JsonList → List String
  | .nil => []
  | .cons x xs =>
    jsonStatements (path ++ "[" ++ toString i ++ "]") x ++ jsonStatementsList path (i + 1) xs

def jsonStatementsFields (path : String) : JsonFields → List String
  | .nil => []
  | .cons k v fs => jsonStatements (path ++ "/" ++ k) v ++ jsonStatementsFields path fs
end

/-- Modelled from the spec: the normalized n-quads document produced by the §6
JSON-LD canonicalization collaborator, as a single newline-separated string
(`dataset_normalized.to_nquads()`). -/
def urdnaNormalize (j : Json) : String := String.intercalate "\n" (jsonStatements "" j)

/-- Split a character list at newline characters; models Rust's
`str::split("\n")` (empty segments retained). -/
def splitOnNewline : List Char → List (List Char)
  | [] => [[]]
  | c :: rest =>
    let r := splitOnNewline rest
    if c = '\n' then [] :: r
    else match r with
      | [] => [[c]]
      | l :: ls => (c :: l) :: ls

/-- Rust `normalized.split("\n")` on a string, producing strings. -/
def splitLines (s : String) : List String := (splitOnNewline s.data).map String.mk

/-- Error type of the credential helper, from the spec's §7 error kinds.
`VadeEvanError` itself is declared in `crate::api`, which is not among the
sources; the constructors are taken from §7 and from the variants named at
the use sites in `credential_merge_with_pr33_later_on.rs`.
`jsonDeSerialization` stands for the conversion applied by `?` to a
`serde_json` failure at sites where the spec does not name a kind. -/
inductive VadeEvanError where
  | invalidDidDocument (msg : String)
  | invalidVerificationMethod (msg : String)
  | publicKeyParsingError (msg : String)
  | bbsValidationError (msg : String)
  | jsonLdHandling (msg : String)
  | cryptoOperationFailed (msg : String)
  | jsonDeSerialization (msg : String)
  deriving Repr, DecidableEq

/-- Error kind of a `VadeEvanError`, with the message stripped. -/
inductive VadeEvanErrorKind where
  | invalidDidDocument
  | invalidVerificationMethod
  | publicKeyParsingError
  | bbsValidationError
  | jsonLdHandling
  | cryptoOperationFailed
  | jsonDeSerialization
  deriving Repr, DecidableEq

/-- Project a `VadeEvanError` to its kind. -/
def VadeEvanError.kind : VadeEvanError → VadeEvanErrorKind
  | .invalidDidDocument _ => .invalidDidDocument
  | .invalidVerificationMethod _ => .invalidVerificationMethod
  | .publicKeyParsingError _ => .publicKeyParsingError
  | .bbsValidationError _ => .bbsValidationError
  | .jsonLdHandling _ => .jsonLdHandling
  | .cryptoOperationFailed _ => .cryptoOperationFailed
  | .jsonDeSerialization _ => .jsonDeSerialization

/-- Embeds `convert_to_nquads` (credential_merge_with_pr33_later_on.rs:82-107):
parse the document, canonicalize it to an n-quads string, split it at
newlines and drop the empty lines. A document the JSON-LD machinery cannot
process yields `JsonLdHandling`. -/
def convert_to_nquads (documentString : String) : Except VadeEvanError (List String) :=
  match jsonParse documentString with
  | none => .error (.jsonLdHandling "loading document failed")
  | some j =>
    let normalized := urdnaNormalize j
    .ok ((splitLines normalized).filter (fun s => ¬ s.isEmpty))

/-- Public key material of a verification method; the source reads only its
`x` member (`method.public_key_jwk.x`). -/
structure PublicKeyJwk where
  x : String
  deriving Repr, DecidableEq

/-- A verification method of a DID document: id plus public key material
(spec §3: "DID Document: a list of verification methods (id + public key
material)"). -/
structure VerificationMethodEntry where
  id : String
  publicKeyJwk : PublicKeyJwk
  deriving Repr, DecidableEq

/-- Modelled from the spec: `crate::datatypes::DidDocument` is declared outside
the given sources; §3 describes it as a list of verification methods, and the
source treats `verification_method` as optional
(`did_document.verification_method.ok_or(...)`). -/
structure DidDocument where
  verificationMethod : Option (List VerificationMethodEntry)
  deriving Repr, DecidableEq

/-- Parse one verification method entry from JSON, requiring the members the
Rust struct declares (`id`, `publicKeyJwk.x`). -/
def parseVerificationMethodEntry (j : Json) : Option VerificationMethodEntry :=
  match j.getField "id", j.getField "publicKeyJwk" with
  | some (.str id), some jwk =>
    match jwk.getField "x" with
    | some (.str x) => some ⟨id, ⟨x⟩⟩
    | _ => none
  | _, _ => none

/-- Parse the elements of a `verificationMethod` array. -/
def parseVerificationMethods : JsonList → Option (List VerificationMethodEntry)
  | .nil => some []
  | .cons j js =>
    match parseVerificationMethodEntry j, parseVerificationMethods js with
    | some m, some ms => some (m :: ms)
    | _, _ => none

/-- Modelled from the spec: deserialization of `crate::datatypes::DidDocument`
(`serde_json::from_str::<DidDocument>`), with the optional
`verificationMethod` member as in the Rust struct. -/
def parseDidDocument (j : Json) : Option DidDocument :=
  match j with
  | .obj _ =>
    match j.getField "verificationMethod" with
    | none => some ⟨none⟩
    | some (.arr xs) => (parseVerificationMethods xs).map (fun ms => ⟨some ms⟩)
    | some _ => none
  | _ => none

/-- Embeds the scan loop of `get_issuer_public_key`
(credential_merge_with_pr33_later_on.rs:201-207): `public_key` starts as the
empty string and is set to `public_key_jwk.x` of the first method whose id
matches, after which the loop breaks. -/
def findPublicKey : List VerificationMethodEntry → String → String
  | [], _ => ""
  | m :: rest, verificationMethodId =>
    if m.id = verificationMethodId then m.publicKeyJwk.x
    else findPublicKey rest verificationMethodId

/-- Embeds `Credential::get_issuer_public_key`
(credential_merge_with_pr33_later_on.rs:177-217). The DID resolution
collaborator (`self.vade_evan.did_resolve`) is passed in as `resolveDid`.
Serde failures on the resolved response and on the DID document body are
mapped to `InvalidDidDocument` as §4.2 directs ("fails with
`InvalidDidDocument` if the resolved document is malformed or missing its
document body"); the `?`-conversion itself lives in `crate::api`, outside the
given sources. -/
def get_issuer_public_key (resolveDid : String → Except VadeEvanError String)
    (issuerDid : String) (verificationMethodId : String) : Except VadeEvanError String :=
  match resolveDid issuerDid with
  | .error e => .error e
  | .ok didResultStr =>
  match jsonParse didResultStr with
  | none => .error (.invalidDidDocument "could not parse resolved did result")
  | some didResultValue =>
    match didResultValue.getField "didDocument" with
    | none => .error (.invalidDidDocument "missing 'didDocument' property in resolved did")
    | some didDocumentJson =>
      match parseDidDocument didDocumentJson with
      | none => .error (.invalidDidDocument "could not parse did document")
      | some didDocument =>
        match didDocument.verificationMethod with
        | none =>
          .error (.invalidVerificationMethod "missing 'verification_method' property in did_document")
        | some verificationMethods =>
          let publicKey := findPublicKey verificationMethods verificationMethodId
          if publicKey = "" then
            .error (.invalidVerificationMethod
              ("no public key found for verification id " ++ verificationMethodId))
          else
            .ok publicKey

/-- Messages covered by a BBS+ signature: the hidden master secret enters as
raw decoded bytes (`SignatureMessage::from`), the n-quads as hashes
(`SignatureMessage::hash`). The hash is modelled as an injective constructor,
the standard symbolic idealization. -/
inductive SignatureMessage where
  | raw (bytes : String)
  | hashed (input : String)
  deriving Repr, DecidableEq

/-- Modelled from the spec: base64 decoding of key, signature and
master-secret strings. Decoding is idealized as the identity (an injective
decoder); its failure cases are orthogonal to every claim. -/
def base64decode (s : String) : String := s

/-- Compact (deterministic) BBS public key as decoded from the issuer's
verification method. -/
structure DeterministicPublicKey where
  bytes : String
  deriving Repr, DecidableEq

/-- Per-message BBS public key generator: the compact key expanded for a fixed
message count (spec §4.2 `derive_public_key_generator`). -/
structure BbsPublicKey where
  bytes : String
  messageCount : Nat
  deriving Repr, DecidableEq

/-- Modelled from the spec: `DeterministicPublicKey::to_public_key` of the bbs
crate deterministically expands the compact key to `messageCount` generators
and rejects a zero message count. -/
def DeterministicPublicKey.toPublicKey (dpk : DeterministicPublicKey) (messageCount : Nat) :
    Except String BbsPublicKey :=
  if messageCount = 0 then .error "to_public_key failed"
  else .ok ⟨dpk.bytes, messageCount⟩

/-- Embeds `get_public_key_generator`
(credential_merge_with_pr33_later_on.rs:109-123). -/
def get_public_key_generator (publicKey : String) (messageCount : Nat) :
    Except VadeEvanError BbsPublicKey :=
  let decodedKey : DeterministicPublicKey := ⟨base64decode publicKey⟩
  match decodedKey.toPublicKey messageCount with
  | .ok generator => .ok generator
  | .error e =>
    .error (.publicKeyParsingError ("public key invalid, generate public key generator; " ++ e))

/-- Canonical byte encoding of a signature message, used by the symbolic
signature model. -/
def encodeSignatureMessage : SignatureMessage → String
  | .raw bytes => "r:" ++ bytes
  | .hashed input => "h:" ++ input

/-- Modelled from the spec: the byte string of a BBS+ signature produced over
a key and an ordered message list (§GLOSSARY: "a scheme signing an ordered
list of messages"). The encoding is injective in the key and the message
list, so a signature validates exactly over the data it was produced for. -/
def bbsSignBytes (keyBytes : String) (messages : List SignatureMessage) : String :=
  keyBytes ++ "|" ++ String.intercalate ";" (messages.map encodeSignatureMessage)

/-- A BBS+ signature as decoded from the credential proof. -/
structure BbsSignature where
  bytes : String
  deriving Repr, DecidableEq

/-- Modelled from the spec: `Signature::verify` of the bbs crate. It errors
when the supplied message list does not fit the generator's message count and
otherwise reports whether the signature is valid over exactly this key and
ordered message list (a `bool`, not an error). -/
def BbsSignature.verify (sig : BbsSignature) (messages : List SignatureMessage)
    (pk : BbsPublicKey) : Except String Bool :=
  if messages.length ≠ pk.messageCount then .error "Public key generator message count mismatch"
  else .ok (sig.bytes == bbsSignBytes pk.bytes messages)

/-- Insertion into a list at an index, as Rust's `Vec::insert`. Every call in
the embedded code inserts at the current length. -/
def listInsertAt : List SignatureMessage → Nat → SignatureMessage → List SignatureMessage
  | l, 0, a => a :: l
  | [], _ + 1, a => [a]
  | x :: xs, n + 1, a => x :: listInsertAt xs n a

/-- Embeds the message-assembly loop of `verify_proof_signature`
(credential_merge_with_pr33_later_on.rs:226-234): the master-secret message is
inserted at index 0, then each n-quad hash is inserted at i = 1, 2, ... in
order. -/
def verifyProofSignatureMessages (masterSecretMessage : SignatureMessage)
    (didDocNquads : List String) : List SignatureMessage :=
  (didDocNquads.foldl
    (fun (p : List SignatureMessage × Nat) message =>
      (listInsertAt p.1 p.2 (SignatureMessage.hashed message), p.2 + 1))
    ([masterSecretMessage], 1)).1

/-- Embeds `Credential::verify_proof_signature`
(credential_merge_with_pr33_later_on.rs:219-245): assemble the message list,
decode the proof, run `Signature::verify`, map a verification *error* to
`BbsValidationError` — and then drop the returned validity boolean:
the source only passes `is_valid` to `dbg!` and returns `Ok(())`. -/
def verify_proof_signature (signature : String) (didDocNquads : List String)
    (masterSecret : String) (pk : BbsPublicKey) : Except VadeEvanError Unit :=
  let masterSecretMessage := SignatureMessage.raw (base64decode masterSecret)
  let signatureMessages := verifyProofSignatureMessages masterSecretMessage didDocNquads
  let decodedProof := base64decode signature
  let sig : BbsSignature := ⟨decodedProof⟩
  match sig.verify signatureMessages pk with
  | .error err => .error (.bbsValidationError err)
  | .ok isValid =>
    let _ := isValid
    .ok ()

/-- The members of `vade_evan_bbs::BbsCredential` that `verify_credential`
reads: the issuer DID and the proof's signature. -/
structure BbsProofFields where
  signature : String
  deriving Repr, DecidableEq

/-- Credential fields consumed by the verification pipeline. -/
structure BbsCredentialModel where
  issuer : String
  proof : BbsProofFields
  deriving Repr, DecidableEq

/-- Modelled from the spec: deserialization of the credential string into
`vade_evan_bbs::BbsCredential` (an external datatype), restricted to the
members the pipeline reads (`credential.issuer`,
`credential.proof.signature`). -/
def parseBbsCredential (credentialStr : String) : Except VadeEvanError BbsCredentialModel :=
  match jsonParse credentialStr with
  | none => .error (.jsonDeSerialization "could not parse credential")
  | some j =>
    match j.getField "issuer", j.getField "proof" with
    | some (.str issuer), some proofObj =>
      match proofObj.getField "signature" with
      | some (.str signature) => .ok ⟨issuer, ⟨signature⟩⟩
      | _ => .error (.jsonDeSerialization "could not parse credential proof")
    | _, _ => .error (.jsonDeSerialization "could not parse credential")

/-- Embeds the n-quad derivation step of `verify_credential`
(credential_merge_with_pr33_later_on.rs:256-259): parse the credential into a
map, remove `proof`, serialize the remainder and canonicalize it. -/
def credentialNquads (credentialStr : String) : Except VadeEvanError (List String) :=
  match jsonParse credentialStr with
  | some (Json.obj fields) =>
    let credentialWithoutProof := serializeJson (Json.obj (fields.removeField "proof"))
    convert_to_nquads credentialWithoutProof
  | some _ => .error (.jsonDeSerialization "credential is not a JSON object")
  | none => .error (.jsonDeSerialization "could not parse credential")

/-- The constant `ADDITIONAL_HIDDEN_MESSAGES_COUNT`
(credential_merge_with_pr33_later_on.rs:28): the master secret is always
incorporated without being mentioned in the schema. -/
def ADDITIONAL_HIDDEN_MESSAGES_COUNT : Nat := 1

/-- Embeds `Credential::verify_credential`
(credential_merge_with_pr33_later_on.rs:247-282): parse the credential, strip
the proof and canonicalize, resolve the issuer public key, expand it for
`nquads + ADDITIONAL_HIDDEN_MESSAGES_COUNT` messages, and run the signature
check. The DID resolution collaborator is passed in as `resolveDid`. -/
def verify_credential (resolveDid : String → Except VadeEvanError String)
    (credentialStr : String) (verificationMethodId : String) (masterSecret : String) :
    Except VadeEvanError Unit :=
  match parseBbsCredential credentialStr with
  | .error e => .error e
  | .ok credential =>
  match credentialNquads credentialStr with
  | .error e => .error e
  | .ok didDocNquads =>
  match get_issuer_public_key resolveDid credential.issuer verificationMethodId with
  | .error e => .error e
  | .ok issuerPubKey =>
  match get_public_key_generator issuerPubKey
      (didDocNquads.length + ADDITIONAL_HIDDEN_MESSAGES_COUNT) with
  | .error e => .error e
  | .ok publicKeyGenerator =>
    verify_proof_signature credential.proof.signature didDocNquads masterSecret
      publicKeyGenerator

/-- A credential schema as consumed by the definition engine (spec §3: named
properties, name → property descriptor). Only the property names are read by
the embedded code; descriptors are kept opaque. -/
structure CredentialSchema where
  properties : List (String × String)
  deriving Repr, DecidableEq

/-- Issuer-held private part of a credential key pair. The scheme's key
material is modelled by a deterministic tag; randomness of key generation is
irrelevant to the claims. -/
structure CredentialPrivateKey where
  keyTag : String
  deriving Repr, DecidableEq

/-- Public part of a credential key pair. Modelled from the spec: ursa's
`CredentialPublicKey` carries one key element per attribute of the combined
credential and non-credential schema, recorded here as `attrs`. -/
structure CredentialPublicKey where
  keyTag : String
  attrs : List String
  deriving Repr, DecidableEq

/-- The public definition produced by the issuer: public key plus correctness
proof (crypto_datatypes::CryptoCredentialDefinition). -/
structure CryptoCredentialDefinition where
  publicKey : CredentialPublicKey
  credentialKeyCorrectnessProof : String
  deriving Repr, DecidableEq

/-- Outcome of a Rust function that returns a bare value and may panic:
either the value, or an unwound panic with its message. -/
inductive RustOutcome (α : Type) where
  | ok (value : α)
  | panicked (message : String)
  deriving Repr, DecidableEq

/-- Modelled from the spec: `ursa::cl::issuer::Issuer::new_credential_def`
derives a key pair and correctness proof covering the attributes of the
credential and non-credential schemas, and rejects an attribute set the
scheme cannot handle (§4.1: "Fails with `CryptoOperationFailed` if the
underlying scheme rejects the attribute set (e.g. empty schema)"): an empty
credential-schema attribute list is rejected. -/
def ursaNewCredentialDef (credentialSchemaAttrs : List String)
    (nonCredentialSchemaAttrs : List String) :
    Except String (CredentialPublicKey × CredentialPrivateKey × String) :=
  if credentialSchemaAttrs.isEmpty then .error "List of attributes is empty"
  else
    let attrs := credentialSchemaAttrs ++ nonCredentialSchemaAttrs
    let keyTag := String.intercalate "," attrs
    .ok (⟨keyTag, attrs⟩, ⟨keyTag⟩, "correctness:" ++ keyTag)

/-- Embeds `Issuer::create_credential_definition` (crypto_issuer.rs:31-58):
the non-credential schema gets the single attribute `master_secret` when
`include_master_secret` is set; the credential schema gets every property
name of the schema, in iteration order; `new_credential_def` then derives a
key pair whose public key covers the attributes of both schemas, and its
result is `.unwrap()`ed — a scheme rejection (e.g. an empty schema) unwinds
as a panic. -/
def create_credential_definition (credentialSchema : CredentialSchema)
    (includeMasterSecret : Bool) :
    RustOutcome (CredentialPrivateKey × CryptoCredentialDefinition) :=
  let nonCredentialSchemaAttrs : List String :=
    if includeMasterSecret then ["master_secret"] else []
  let credentialSchemaAttrs : List String := credentialSchema.properties.map Prod.fst
  match ursaNewCredentialDef credentialSchemaAttrs nonCredentialSchemaAttrs with
  | .ok (publicKey, privateKey, correctnessProof) =>
    .ok (privateKey, ⟨publicKey, correctnessProof⟩)
  | .error e => .panicked ("called Result::unwrap() on an Err value: " ++ e)

/-- A holder's credential request (crypto_datatypes::CryptoCredentialRequest):
blinded secrets, their correctness proof, a nonce, and the values to sign.
Blinded secrets and proofs are modelled as opaque numbers; the proof matches
the secrets exactly when the numbers agree. -/
structure CryptoCredentialRequest where
  subject : String
  blindedCredentialSecrets : Nat
  blindedCredentialSecretsCorrectnessProof : Nat
  credentialNonce : Nat
  credentialValues : List (String × String)
  deriving Repr, DecidableEq

/-- Modelled from the spec: `ursa::cl::new_nonce` produces a fresh issuance
nonce. Freshness is irrelevant to every claim, so the nonce is a constant. -/
def new_nonce : Nat := 0

/-- A CL credential signature. `revocationIndex` records the revocation index
the non-revocation part was issued at (`None` for the non-revocable path). -/
structure CredentialSignature where
  keyTag : String
  revocationIndex : Option Nat
  deriving Repr, DecidableEq

/-- The signed credential returned to the holder (crypto_datatypes
::SignedCredential): signature, correctness proof, issuance nonce. -/
structure SignedCredential where
  signature : CredentialSignature
  correctnessProof : String
  issuanceNonce : Nat
  deriving Repr, DecidableEq

/-- Modelled from the spec: `ursa::cl::issuer::Issuer::sign_credential`
validates the blinded-secret correctness proof against the holder's secrets
and the key pair, and rejects on proof or key mismatch (§4.1: "Fails with
`CryptoOperationFailed` on proof or key mismatch" describes the scheme's
rejection). -/
def ursaSignCredential (request : CryptoCredentialRequest)
    (publicKey : CredentialPublicKey) (privateKey : CredentialPrivateKey) :
    Except String (CredentialSignature × String) :=
  if request.blindedCredentialSecretsCorrectnessProof = request.blindedCredentialSecrets
      ∧ privateKey.keyTag = publicKey.keyTag then
    .ok (⟨publicKey.keyTag, none⟩, "signature_correctness")
  else
    .error "Invalid structure"

/-- Embeds `Issuer::sign_credential` (crypto_issuer.rs:97-117): generate an
issuance nonce, call the scheme's signing operation, and `.unwrap()` the
result — a scheme rejection therefore unwinds as a panic; the function's
return type is a bare `SignedCredential` with no error value. -/
def sign_credential (credentialRequest : CryptoCredentialRequest)
    (credentialPrivateKey : CredentialPrivateKey)
    (credentialPublicKey : CredentialPublicKey) : RustOutcome SignedCredential :=
  let credentialIssuanceNonce := new_nonce
  match ursaSignCredential credentialRequest credentialPublicKey credentialPrivateKey with
  | .ok (cred, proof) => .ok ⟨cred, proof, credentialIssuanceNonce⟩
  | .error e => .panicked ("called Result::unwrap() on an Err value: " ++ e)

/-- The public revocation accumulator (ursa's `RevocationRegistry`), kept
opaque. -/
structure RevocationRegistry where
  accumulator : Nat
  deriving Repr, DecidableEq

/-- A delta between two accumulator states. -/
structure RevocationRegistryDelta where
  value : Nat
  deriving Repr, DecidableEq

/-- The tails witness-generation blob. -/
structure RevocationTailsGenerator where
  size : Nat
  deriving Repr, DecidableEq

/-- Issuer-only private revocation key. -/
structure RevocationKeyPrivate where
  tag : String
  deriving Repr, DecidableEq

/-- Public revocation key. -/
structure RevocationKeyPublic where
  tag : String
  deriving Repr, DecidableEq

/-- The revocation registry definition (crypto_datatypes
::RevocationRegistryDefinition): accumulator, optional pending delta, tails
blob, revocation public key, and fixed maximum capacity. -/
structure RevocationRegistryDefinition where
  registry : RevocationRegistry
  registryDelta : Option RevocationRegistryDelta
  tails : RevocationTailsGenerator
  revocationPublicKey : RevocationKeyPublic
  maximumCredentialCount : Nat
  deriving Repr, DecidableEq

/-- The tails accessor constructed for signing
(`SimpleTailsAccessor::new(&mut ...tails)`). -/
structure SimpleTailsAccessor where
  size : Nat
  deriving Repr, DecidableEq

/-- Construction of the tails accessor from the registry's tails generator.
Whatever mutation `SimpleTailsAccessor::new` performs on the generator is
internal to the external ursa crate and is not modelled. -/
def SimpleTailsAccessor.ofTails (tails : RevocationTailsGenerator) : SimpleTailsAccessor :=
  ⟨tails.size⟩

/-- Modelled from the spec:
`ursa::cl::issuer::Issuer::sign_credential_with_revoc` signs a non-revocation
credential at the *supplied* index `revIdx`, rejecting on proof or key
mismatch and on an index outside the registry capacity (§4.1: "Fails with
`CryptoOperationFailed` if the registry is at capacity"). With
`issuance_by_default = true` no accumulator delta is produced (source comment
crypto_issuer.rs:131), so the registry value is returned unchanged. -/
def ursaSignCredentialWithRevoc (request : CryptoCredentialRequest)
    (publicKey : CredentialPublicKey) (privateKey : CredentialPrivateKey)
    (revIdx : Nat) (maxCredNum : Nat) (issuanceByDefault : Bool)
    (registry : RevocationRegistry) (revocationPrivateKey : RevocationKeyPrivate)
    (tailsAccessor : SimpleTailsAccessor) :
    Except String ((CredentialSignature × String × Option RevocationRegistryDelta)
      × RevocationRegistry) :=
  let _ := revocationPrivateKey
  let _ := tailsAccessor
  if request.blindedCredentialSecretsCorrectnessProof = request.blindedCredentialSecrets
      ∧ privateKey.keyTag = publicKey.keyTag ∧ revIdx < maxCredNum then
    .ok ((⟨publicKey.keyTag, some revIdx⟩, "signature_correctness",
      if issuanceByDefault then none else some ⟨registry.accumulator⟩), registry)
  else
    .error "Invalid structure"

/-- Embeds `Issuer::sign_credential_with_revocation` (crypto_issuer.rs:119-154):
generate a nonce, build the tails accessor, and call the scheme's
revocation-capable signing at the **caller-supplied** `credential_revocation_id`
with the registry's fixed capacity and `issuance_by_default = true`, then
`.unwrap()` — a scheme rejection unwinds as a panic. The `&mut` registry is
modelled by returning the updated definition alongside the credential. -/
def sign_credential_with_revocation (credentialRequest : CryptoCredentialRequest)
    (credentialPrivateKey : CredentialPrivateKey)
    (credentialPublicKey : CredentialPublicKey)
    (credentialRevocationDefinition : RevocationRegistryDefinition)
    (credentialRevocationId : Nat)
    (revocationPrivateKey : RevocationKeyPrivate) :
    RustOutcome (SignedCredential × RevocationRegistryDefinition) :=
  let credentialIssuanceNonce := new_nonce
  let tailsAccessor := SimpleTailsAccessor.ofTails credentialRevocationDefinition.tails
  match ursaSignCredentialWithRevoc credentialRequest credentialPublicKey credentialPrivateKey
      credentialRevocationId credentialRevocationDefinition.maximumCredentialCount true
      credentialRevocationDefinition.registry revocationPrivateKey tailsAccessor with
  | .ok ((cred, proof, _delta), registryAfter) =>
    .ok (⟨cred, proof, credentialIssuanceNonce⟩,
      { credentialRevocationDefinition with registry := registryAfter })
  | .error e => .panicked ("called Result::unwrap() on an Err value: " ++ e)

/-- Modelled from the spec: the substrate ledger payload store behind
`crate::utils::substrate` (§6 collaborator: `get_payload_count_for_did`,
`add_payload_to_did`, `update_payload_in_did`). Each DID owns an append-only
list of payload strings. -/
def Ledger : Type := String → List String

/-- Modelled from the spec: `get_payload_count_for_did` returns the number of
payloads stored for the DID. -/
def get_payload_count_for_did (ledger : Ledger) (did : String) : Nat :=
  (ledger did).length

/-- Modelled from the spec: `add_payload_to_did` appends a new payload for the
DID. -/
def add_payload_to_did (ledger : Ledger) (value : String) (did : String) : Ledger :=
  fun d => if d = did then ledger did ++ [value] else ledger d

/-- Modelled from the spec: `update_payload_in_did` overwrites the payload at
the given index for the DID. -/
def update_payload_in_did (ledger : Ledger) (index : Nat) (value : String) (did : String) :
    Ledger :=
  fun d => if d = did then (ledger did).set index value else ledger d

/-- Embeds `SubstrateDidResolverEvan::set_did_document` (resolver/mod.rs:92-100):
read the payload count for the DID; if positive, update the payload at index
0, otherwise append the first payload. -/
def set_did_document (ledger : Ledger) (didId : String) (value : String) : Ledger :=
  let payloadCount := get_payload_count_for_did ledger didId
  if payloadCount > 0 then update_payload_in_did ledger 0 value didId
  else add_payload_to_did ledger value didId

/-- Kind of the error carried by a failed operation, `none` on success. -/
def errorKindOf {α : Type} : Except VadeEvanError α → Option VadeEvanErrorKind
  | .error e => some e.kind
  | .ok _ => none

/-- Revocation index recorded in a signed credential, `none` if signing
panicked. -/
def signedRevocationIndex :
    RustOutcome (SignedCredential × RevocationRegistryDefinition) → Option Nat
  | .ok (signedCredential, _) => signedCredential.signature.revocationIndex
  | .panicked _ => none

/-- Sample schema with a single property, as in the spec's §8 end-to-end
scenario. -/
def sampleSchema : CredentialSchema := ⟨[("bio", "string")]⟩

/-- Key pair derived from `sampleSchema` with the master secret included
(`sampleSchema` is nonempty, so the derivation succeeds). -/
def sampleKeyPair : CredentialPrivateKey × CryptoCredentialDefinition :=
  match create_credential_definition sampleSchema true with
  | .ok pair => pair
  | .panicked _ => (⟨""⟩, ⟨⟨"", []⟩, ""⟩)

/-- The empty credential schema: no properties at all. -/
def emptySchema : CredentialSchema := ⟨[]⟩

/-- Attribute list of the definition produced by
`create_credential_definition`, `none` when the call panicked. -/
def createdDefinitionAttrs (credentialSchema : CredentialSchema)
    (includeMasterSecret : Bool) : Option (List String) :=
  match create_credential_definition credentialSchema includeMasterSecret with
  | .ok pair => some pair.2.publicKey.attrs
  | .panicked _ => none

/-- Private key of the sample pair. -/
def samplePrivateKey : CredentialPrivateKey := sampleKeyPair.1

/-- Public key of the sample pair. -/
def samplePublicKey : CredentialPublicKey := sampleKeyPair.2.publicKey

/-- A well-formed credential request: the correctness proof matches the
blinded secrets. -/
def sampleOkRequest : CryptoCredentialRequest := ⟨"holder", 7, 7, 3, [("bio", "biography")]⟩

/-- A request whose blinded-secret correctness proof does not match. -/
def sampleBadRequest : CryptoCredentialRequest := ⟨"holder", 7, 8, 3, [("bio", "biography")]⟩

/-- Sample private revocation key. -/
def sampleRevocationKeyPrivate : RevocationKeyPrivate := ⟨"revsk"⟩

/-- A fresh revocation registry definition with capacity 5. -/
def sampleRegistryDefinition : RevocationRegistryDefinition :=
  ⟨⟨0⟩, none, ⟨5⟩, ⟨"revpk"⟩, 5⟩

/-- First revocation-capable signing against the sample registry, at the
caller-supplied index 0. -/
def firstRevocationSign : RustOutcome (SignedCredential × RevocationRegistryDefinition) :=
  sign_credential_with_revocation sampleOkRequest samplePrivateKey samplePublicKey
    sampleRegistryDefinition 0 sampleRevocationKeyPrivate

/-- The registry state after the first signing (unchanged input on panic). -/
def registryAfterFirstSign : RevocationRegistryDefinition :=
  match firstRevocationSign with
  | .ok (_, registryDefinition) => registryDefinition
  | .panicked _ => sampleRegistryDefinition

/-- Second revocation-capable signing against the same registry, again at the
caller-supplied index 0. -/
def secondRevocationSign : RustOutcome (SignedCredential × RevocationRegistryDefinition) :=
  sign_credential_with_revocation sampleOkRequest samplePrivateKey samplePublicKey
    registryAfterFirstSign 0 sampleRevocationKeyPrivate

/-- Resolved DID response of the sample issuer `"i"`: one verification method
`#k` whose public key is `K`. -/
def sampleIssuerResponse : String :=
  "\x7b\"didDocument\":\x7b\"verificationMethod\":[\x7b\"id\":\"#k\",\"publicKeyJwk\":\x7b\"x\":\"K\"\x7d\x7d]\x7d\x7d"

/-- Sample DID resolution collaborator: resolves exactly the issuer `"i"`. -/
def sampleResolveDid : String → Except VadeEvanError String :=
  fun did =>
    if did = "i" then .ok sampleIssuerResponse
    else .error (.invalidDidDocument "unknown did")

/-- A credential document issued by `"i"` over one subject data value `bio`,
carrying the given proof signature. -/
def sampleCredentialJson (bio : String) (signature : String) : Json :=
  Json.obj (.cons "credentialSubject"
    (Json.obj (.cons "data" (Json.obj (.cons "bio" (Json.str bio) .nil)) .nil))
    (.cons "issuer" (Json.str "i")
    (.cons "proof" (Json.obj (.cons "signature" (Json.str signature) .nil)) .nil)))

/-- The n-quads the signature covers: canonicalization of the original
credential (subject value `"a"`) with the proof stripped. -/
def sampleSignedNquads : List String :=
  match credentialNquads (serializeJson (sampleCredentialJson "a" "")) with
  | .ok nquads => nquads
  | .error _ => []

/-- An honest signature over the original credential: produced with key `K`
over the master-secret message (master secret `"M"`) followed by the hashes
of the original n-quads. -/
def sampleSignature : String :=
  bbsSignBytes (base64decode "K")
    (verifyProofSignatureMessages (SignatureMessage.raw (base64decode "M")) sampleSignedNquads)

/-- The original, honestly signed credential document. -/
def sampleOriginalCredential : String :=
  serializeJson (sampleCredentialJson "a" sampleSignature)

/-- The tampered credential: `credentialSubject.data.bio` mutated from `"a"`
to `"b"` after signing, signature left as issued. -/
def sampleTamperedCredential : String :=
  serializeJson (sampleCredentialJson "b" sampleSignature)

/-- Canonicalized n-quads of the tampered credential. -/
def sampleTamperedNquads : List String :=
  match credentialNquads sampleTamperedCredential with
  | .ok nquads => nquads
  | .error _ => []

/-- A JSON document in one key order and formatting. -/
def jsonKeyOrderExampleA : String := "\x7b\"a\":1,\"b\":\"x\"\x7d"

/-- The same JSON document with keys reordered and whitespace inserted. -/
def jsonKeyOrderExampleB : String := " \x7b  \"b\" : \"x\" ,\n  \"a\" : 1 \x7d "

/-- A resolved response missing its `didDocument` member. -/
def responseMissingDidDocument : String := "\x7b\"foo\":1\x7d"

/-- Resolver returning a malformed (non-JSON) response. -/
def resolveMalformed : String → Except VadeEvanError String := fun _ => .ok "not json"

/-- Resolver returning a response without a `didDocument` member. -/
def resolveMissingDidDocument : String → Except VadeEvanError String :=
  fun _ => .ok responseMissingDidDocument

/-- The verification method entry contained in `sampleIssuerResponse`. -/
def sampleMethodEntry : VerificationMethodEntry := ⟨"#k", ⟨"K"⟩⟩

/-- Parsed form of the issuer DID document in `sampleIssuerResponse`. -/
def sampleDidDocumentJson : Json :=
  Json.obj (.cons "verificationMethod"
    (Json.arr (.cons
      (Json.obj (.cons "id" (Json.str "#k")
        (.cons "publicKeyJwk" (Json.obj (.cons "x" (Json.str "K") .nil)) .nil)))
      .nil))
    .nil)

/-- Parsed form of `sampleIssuerResponse`. -/
def sampleResponseJson : Json :=
  Json.obj (.cons "didDocument" sampleDidDocumentJson .nil)

/-- Resolved response whose only verification method `#k` carries an
empty-string public key. -/
def responseEmptyKey : String :=
  "\x7b\"didDocument\":\x7b\"verificationMethod\":[\x7b\"id\":\"#k\",\"publicKeyJwk\":\x7b\"x\":\"\"\x7d\x7d]\x7d\x7d"

/-- Resolver returning `responseEmptyKey`. -/
def resolveEmptyKey : String → Except VadeEvanError String := fun _ => .ok responseEmptyKey

/-- The empty-keyed verification method entry of `responseEmptyKey`. -/
def emptyKeyMethodEntry : VerificationMethodEntry := ⟨"#k", ⟨""⟩⟩

/-- Parsed issuer DID document of `responseEmptyKey`. -/
def emptyKeyDidDocumentJson : Json :=
  Json.obj (.cons "verificationMethod"
    (Json.arr (.cons
      (Json.obj (.cons "id" (Json.str "#k")
        (.cons "publicKeyJwk" (Json.obj (.cons "x" (Json.str "") .nil)) .nil)))
      .nil))
    .nil)

/-- Parsed form of `responseEmptyKey`. -/
def emptyKeyResponseJson : Json :=
  Json.obj (.cons "didDocument" emptyKeyDidDocumentJson .nil)

/-- An empty ledger: no DID has any payload. -/
def emptyLedger : Ledger := fun _ => []

/-- Rust's `Vec::insert` at the current length appends. -/
theorem listInsertAt_length (l : List SignatureMessage) (a : SignatureMessage) :
    listInsertAt l l.length a = l ++ [a] := by
  induction l with
  | nil => rfl
  | cons x xs ih => simpa [listInsertAt] using ih

/-- Auxiliary characterization of the message-assembly fold: starting from an
accumulator and its length, the fold appends the hash of each n-quad in
order. -/
theorem verifyProofSignatureMessages_go (nquads : List String) (acc : List SignatureMessage) :
    (nquads.foldl
      (fun (p : List SignatureMessage × Nat) message =>
        (listInsertAt p.1 p.2 (SignatureMessage.hashed message), p.2 + 1))
      (acc, acc.length)).1
    = acc ++ nquads.map SignatureMessage.hashed := by
  induction nquads generalizing acc with
  | nil => simp
  | cons x xs ih =>
    have hlen : acc.length + 1 = (acc ++ [SignatureMessage.hashed x]).length := by simp
    calc (List.foldl
          (fun (p : List SignatureMessage × Nat) message =>
            (listInsertAt p.1 p.2 (SignatureMessage.hashed message), p.2 + 1))
          (acc, acc.length) (x :: xs)).1
        = (List.foldl
            (fun (p : List SignatureMessage × Nat) message =>
              (listInsertAt p.1 p.2 (SignatureMessage.hashed message), p.2 + 1))
            (acc ++ [SignatureMessage.hashed x], (acc ++ [SignatureMessage.hashed x]).length)
            xs).1 := by
          rw [List.foldl_cons, listInsertAt_length, hlen]
      _ = (acc ++ [SignatureMessage.hashed x]) ++ xs.map SignatureMessage.hashed := ih _
      _ = acc ++ (x :: xs).map SignatureMessage.hashed := by simp

/-- The assembled signature message list is the master-secret message at index
0 followed by the n-quad hashes in canonical order. -/
theorem verifyProofSignatureMessages_eq (m : SignatureMessage) (nquads : List String) :
    verifyProofSignatureMessages m nquads = m :: nquads.map SignatureMessage.hashed := by
  have h := verifyProofSignatureMessages_go nquads [m]
  simpa [verifyProofSignatureMessages] using h

/-- The scan loop leaves `public_key` empty when no verification method id
matches. -/
theorem findPublicKey_of_no_match (ms : List VerificationMethodEntry) (vmid : String)
    (h : ∀ m ∈ ms, m.id ≠ vmid) : findPublicKey ms vmid = "" := by
  induction ms with
  | nil => rfl
  | cons a rest ih =>
    rw [findPublicKey, if_neg (h a (List.mem_cons_self a rest))]
    exact ih (fun m hm => h m (List.mem_cons_of_mem a hm))

/-- The scan loop returns the key of the first matching verification
method. -/
theorem findPublicKey_of_first_match (ms : List VerificationMethodEntry) (vmid : String)
    (m : VerificationMethodEntry) (h : ms.find? (fun mm => mm.id == vmid) = some m) :
    findPublicKey ms vmid = m.publicKeyJwk.x := by
  induction ms with
  | nil => simp [List.find?] at h
  | cons a rest ih =>
    by_cases hid : a.id = vmid
    · have : a = m := by
        simpa [List.find?_cons, hid] using h
      rw [findPublicKey, if_pos hid, this]
    · rw [findPublicKey, if_neg hid]
      refine ih ?_
      simpa [List.find?_cons, hid] using h

/-- C2 counterexample: at the empty schema no definition is produced at all —
the scheme rejects the empty attribute set and the source's `.unwrap()` turns
that rejection into a panic, for both values of `include_master_secret`; so
the claim's universal statement over every schema fails at S = ∅. -/
theorem create_credential_definition_empty_schema_counterexample :
    create_credential_definition emptySchema false
      = .panicked "called Result::unwrap() on an Err value: List of attributes is empty"
    ∧ create_credential_definition emptySchema true
      = .panicked "called Result::unwrap() on an Err value: List of attributes is empty" :=
  ⟨by decide, by decide⟩

/-- C2 amended: for every credential schema S with a nonempty property set,
`create_credential_definition(S, true)` produces a definition whose attribute
set is the set of property names of S together with the extra attribute
`"master_secret"`, and `create_credential_definition(S, false)` produces
exactly the set of property names of S; at an empty schema the underlying
scheme's rejection is unwrapped into a panic and no definition is
produced. -/
theorem create_credential_definition_attribute_set (S : CredentialSchema)
    (hne : S.properties ≠ []) :
    (createdDefinitionAttrs S true).map List.toFinset
      = some ((S.properties.map Prod.fst).toFinset ∪ {"master_secret"})
    ∧ (createdDefinitionAttrs S false).map List.toFinset
      = some (S.properties.map Prod.fst).toFinset := by
  have hmap : (S.properties.map Prod.fst).isEmpty = false := by
    simp [List.isEmpty_iff, hne]
  constructor
  · simp [createdDefinitionAttrs, create_credential_definition, ursaNewCredentialDef, hmap]
  · simp [createdDefinitionAttrs, create_credential_definition, ursaNewCredentialDef, hmap]

/-- Witness for the amended C2 at the sample single-property schema. -/
theorem create_credential_definition_attribute_set_witness :
    (createdDefinitionAttrs sampleSchema true).map List.toFinset
      = some ((sampleSchema.properties.map Prod.fst).toFinset ∪ {"master_secret"})
    ∧ (createdDefinitionAttrs sampleSchema false).map List.toFinset
      = some (sampleSchema.properties.map Prod.fst).toFinset :=
  create_credential_definition_attribute_set sampleSchema (by decide)

/-- C6: `convert_to_nquads` is deterministic — running it twice on the same
document gives the same output, and any two documents with the same parse
(in particular documents differing only in key order, whitespace or
formatting, which the serde_json model erases) canonicalize to identical
output sequences. -/
theorem convert_to_nquads_deterministic :
    (∀ d : String, convert_to_nquads d = convert_to_nquads d)
    ∧ ∀ d1 d2 : String, jsonParse d1 = jsonParse d2 →
        convert_to_nquads d1 = convert_to_nquads d2 := by
  refine ⟨fun d => rfl, fun d1 d2 h => ?_⟩
  unfold convert_to_nquads
  rw [h]

/-- Witness for C6 at concrete documents that differ only in key order and
whitespace. -/
theorem convert_to_nquads_deterministic_witness :
    jsonParse jsonKeyOrderExampleA = jsonParse jsonKeyOrderExampleB
    ∧ convert_to_nquads jsonKeyOrderExampleA = convert_to_nquads jsonKeyOrderExampleB :=
  ⟨by decide,
    convert_to_nquads_deterministic.2 jsonKeyOrderExampleA jsonKeyOrderExampleB (by decide)⟩

/-- C9: `set_did_document` reads the payload count and appends the first
payload when the count is zero (create path), otherwise updates the payload
at index 0 (update path); a fresh DID therefore has payload count 1 after one
`set_did_document`, and a second `set_did_document` keeps the count at 1
while replacing the stored value. -/
theorem set_did_document_create_then_update (ledger : Ledger) (did v1 v2 : String)
    (hfresh : ledger did = []) :
    ((set_did_document ledger did v1) did = [v1]
      ∧ get_payload_count_for_did (set_did_document ledger did v1) did = 1
      ∧ (set_did_document (set_did_document ledger did v1) did v2) did = [v2]
      ∧ get_payload_count_for_did (set_did_document (set_did_document ledger did v1) did v2) did
        = 1)
    ∧ (∀ (l : Ledger) (d value : String),
        (get_payload_count_for_did l d = 0 →
          set_did_document l d value = add_payload_to_did l value d)
        ∧ (get_payload_count_for_did l d > 0 →
          set_did_document l d value = update_payload_in_did l 0 value d)) := by
  constructor
  · have h1 : (set_did_document ledger did v1) did = [v1] := by
      simp [set_did_document, get_payload_count_for_did, add_payload_to_did,
        update_payload_in_did, hfresh]
    have h2 : ∀ l : Ledger, l did = [v1] → (set_did_document l did v2) did = [v2] := by
      intro l hl
      simp [set_did_document, get_payload_count_for_did, update_payload_in_did, hl]
    refine ⟨h1, ?_, h2 _ h1, ?_⟩
    · simp [get_payload_count_for_did, h1]
    · simpa [get_payload_count_for_did] using congrArg List.length (h2 _ h1)
  · intro l d value
    constructor
    · intro hz
      simp [set_did_document, hz]
    · intro hp
      simp only [set_did_document]
      rw [if_pos hp]

/-- Witness for C9 on the empty ledger with the spec's literal payloads. -/
theorem set_did_document_create_then_update_witness :
    (set_did_document emptyLedger "did:evan:test" "\x7b\"a\":1\x7d") "did:evan:test"
      = ["\x7b\"a\":1\x7d"]
    ∧ (set_did_document (set_did_document emptyLedger "did:evan:test" "\x7b\"a\":1\x7d")
        "did:evan:test" "\x7b\"a\":2\x7d") "did:evan:test" = ["\x7b\"a\":2\x7d"] :=
  ⟨(set_did_document_create_then_update emptyLedger "did:evan:test"
      "\x7b\"a\":1\x7d" "\x7b\"a\":2\x7d" rfl).1.1,
    (set_did_document_create_then_update emptyLedger "did:evan:test"
      "\x7b\"a\":1\x7d" "\x7b\"a\":2\x7d" rfl).1.2.2.1⟩

/-- C5 counterexample: at a concrete request whose blinded-secret correctness
proof does not match, `sign_credential` panics (the `.unwrap()` on the
scheme's rejection unwinds); it does not return `CryptoOperationFailed` — its
return type is a bare `SignedCredential` with no error value at all. -/
theorem sign_credential_panics_counterexample :
    sign_credential sampleBadRequest samplePrivateKey samplePublicKey
      = .panicked "called Result::unwrap() on an Err value: Invalid structure" := by
  decide

/-- C5 amended: whenever the underlying scheme rejects the request (proof or
key mismatch), `sign_credential` panics via `.unwrap()` instead of returning
a typed error; no error value can be returned, as the return type is a bare
`SignedCredential`. -/
theorem sign_credential_panics_on_scheme_rejection
    (credentialRequest : CryptoCredentialRequest)
    (credentialPrivateKey : CredentialPrivateKey)
    (credentialPublicKey : CredentialPublicKey) (e : String)
    (hrej : ursaSignCredential credentialRequest credentialPublicKey credentialPrivateKey
      = .error e) :
    sign_credential credentialRequest credentialPrivateKey credentialPublicKey
      = .panicked ("called Result::unwrap() on an Err value: " ++ e) := by
  unfold sign_credential
  rw [hrej]

/-- Witness for the amended C5 at the concrete mismatching request. -/
theorem sign_credential_panics_on_scheme_rejection_witness :
    sign_credential sampleBadRequest samplePrivateKey samplePublicKey
      = .panicked ("called Result::unwrap() on an Err value: " ++ "Invalid structure") :=
  sign_credential_panics_on_scheme_rejection sampleBadRequest samplePrivateKey samplePublicKey
    "Invalid structure" (by decide)

/-- C3 counterexample: two successive revocation-capable signing operations
against the same registry, both invoked with `credential_revocation_id = 0`,
both succeed and both receive revocation index 0 — the indices are not
distinct, because the function does not allocate them itself. -/
theorem sign_with_revocation_same_index_counterexample :
    signedRevocationIndex firstRevocationSign = some 0
    ∧ signedRevocationIndex secondRevocationSign = some 0 := by
  decide

/-- C3 amended: `sign_credential_with_revocation` signs at exactly the
caller-supplied `credential_revocation_id`; it performs no index allocation
of its own, so distinctness of indices across successive signing operations
holds only if the caller supplies distinct ids. -/
theorem sign_with_revocation_uses_caller_index
    (credentialRequest : CryptoCredentialRequest)
    (credentialPrivateKey : CredentialPrivateKey)
    (credentialPublicKey : CredentialPublicKey)
    (revocationDefinition : RevocationRegistryDefinition)
    (credentialRevocationId : Nat)
    (revocationPrivateKey : RevocationKeyPrivate)
    (signedCredential : SignedCredential)
    (definitionAfter : RevocationRegistryDefinition)
    (hok : sign_credential_with_revocation credentialRequest credentialPrivateKey
        credentialPublicKey revocationDefinition credentialRevocationId revocationPrivateKey
      = .ok (signedCredential, definitionAfter)) :
    signedCredential.signature.revocationIndex = some credentialRevocationId := by
  unfold sign_credential_with_revocation ursaSignCredentialWithRevoc at hok
  by_cases hc : credentialRequest.blindedCredentialSecretsCorrectnessProof
        = credentialRequest.blindedCredentialSecrets
      ∧ credentialPrivateKey.keyTag = credentialPublicKey.keyTag
      ∧ credentialRevocationId < revocationDefinition.maximumCredentialCount
  · rw [if_pos hc] at hok
    simp only [RustOutcome.ok.injEq, Prod.mk.injEq] at hok
    rw [← hok.1]
  · rw [if_neg hc] at hok
    exact absurd hok (by simp)

/-- Witness for the amended C3 at index 1 against the sample registry. -/
theorem sign_with_revocation_uses_caller_index_witness :
    (SignedCredential.mk ⟨samplePublicKey.keyTag, some 1⟩ "signature_correctness" new_nonce
      ).signature.revocationIndex = some 1 :=
  sign_with_revocation_uses_caller_index sampleOkRequest samplePrivateKey samplePublicKey
    sampleRegistryDefinition 1 sampleRevocationKeyPrivate
    (SignedCredential.mk ⟨samplePublicKey.keyTag, some 1⟩ "signature_correctness" new_nonce)
    sampleRegistryDefinition (by decide)

/-- C8: `get_issuer_public_key` returns `InvalidVerificationMethod` whenever
no verification method of the resolved issuer DID document has the requested
id (including a missing `verificationMethod` list), and `InvalidDidDocument`
whenever the resolved response is malformed, has no `didDocument` body, or
carries a malformed document body. -/
theorem get_issuer_public_key_error_cases
    (resolveDid : String → Except VadeEvanError String)
    (issuerDid verificationMethodId response : String)
    (hres : resolveDid issuerDid = .ok response) :
    (jsonParse response = none →
      errorKindOf (get_issuer_public_key resolveDid issuerDid verificationMethodId)
        = some .invalidDidDocument)
    ∧ (∀ j : Json, jsonParse response = some j → j.getField "didDocument" = none →
      errorKindOf (get_issuer_public_key resolveDid issuerDid verificationMethodId)
        = some .invalidDidDocument)
    ∧ (∀ (j dd : Json), jsonParse response = some j → j.getField "didDocument" = some dd →
      parseDidDocument dd = none →
      errorKindOf (get_issuer_public_key resolveDid issuerDid verificationMethodId)
        = some .invalidDidDocument)
    ∧ (∀ (j dd : Json) (doc : DidDocument), jsonParse response = some j →
      j.getField "didDocument" = some dd → parseDidDocument dd = some doc →
      doc.verificationMethod = none →
      errorKindOf (get_issuer_public_key resolveDid issuerDid verificationMethodId)
        = some .invalidVerificationMethod)
    ∧ (∀ (j dd : Json) (doc : DidDocument) (ms : List VerificationMethodEntry),
      jsonParse response = some j → j.getField "didDocument" = some dd →
      parseDidDocument dd = some doc → doc.verificationMethod = some ms →
      (∀ m ∈ ms, m.id ≠ verificationMethodId) →
      errorKindOf (get_issuer_public_key resolveDid issuerDid verificationMethodId)
        = some .invalidVerificationMethod) := by
  refine ⟨?_, ?_, ?_, ?_, ?_⟩
  · intro hnone
    simp [get_issuer_public_key, hres, hnone, errorKindOf, VadeEvanError.kind]
  · intro j hj hdd
    simp [get_issuer_public_key, hres, hj, hdd, errorKindOf, VadeEvanError.kind]
  · intro j dd hj hdd hdoc
    simp [get_issuer_public_key, hres, hj, hdd, hdoc, errorKindOf, VadeEvanError.kind]
  · intro j dd doc hj hdd hdoc hvm
    simp [get_issuer_public_key, hres, hj, hdd, hdoc, hvm, errorKindOf, VadeEvanError.kind]
  · intro j dd doc ms hj hdd hdoc hvm hno
    have hfind : findPublicKey ms verificationMethodId = "" :=
      findPublicKey_of_no_match ms verificationMethodId hno
    simp [get_issuer_public_key, hres, hj, hdd, hdoc, hvm, hfind, errorKindOf,
      VadeEvanError.kind]

/-- Witness for C8: a malformed response, a response without `didDocument`,
and a resolvable document without a matching verification method id, each
produce the claimed error kind. -/
theorem get_issuer_public_key_error_cases_witness :
    errorKindOf (get_issuer_public_key resolveMalformed "i" "#k")
      = some .invalidDidDocument
    ∧ errorKindOf (get_issuer_public_key resolveMissingDidDocument "i" "#k")
      = some .invalidDidDocument
    ∧ errorKindOf (get_issuer_public_key sampleResolveDid "i" "#nope")
      = some .invalidVerificationMethod :=
  ⟨(get_issuer_public_key_error_cases resolveMalformed "i" "#k" "not json" rfl).1
      (by decide),
    (get_issuer_public_key_error_cases resolveMissingDidDocument "i" "#k"
        responseMissingDidDocument rfl).2.1
      (Json.obj (.cons "foo" (Json.num 1) .nil)) (by decide) (by decide),
    (get_issuer_public_key_error_cases sampleResolveDid "i" "#nope"
        sampleIssuerResponse rfl).2.2.2.2
      sampleResponseJson sampleDidDocumentJson ⟨some [sampleMethodEntry]⟩ [sampleMethodEntry]
      (by decide) (by decide) (by decide) rfl (by decide)⟩

/-- C10: when the first verification method whose id matches the requested
`verification_method_id` carries an empty-string public key
(`public_key_jwk.x = ""`), `get_issuer_public_key` still returns
`InvalidVerificationMethod` — the scan cannot distinguish an empty key from
an absent method. -/
theorem get_issuer_public_key_empty_key_rejected
    (resolveDid : String → Except VadeEvanError String)
    (issuerDid verificationMethodId response : String) (j dd : Json)
    (doc : DidDocument) (ms : List VerificationMethodEntry) (m : VerificationMethodEntry)
    (hres : resolveDid issuerDid = .ok response)
    (hj : jsonParse response = some j)
    (hdd : j.getField "didDocument" = some dd)
    (hdoc : parseDidDocument dd = some doc)
    (hvm : doc.verificationMethod = some ms)
    (hfind : ms.find? (fun mm => mm.id == verificationMethodId) = some m)
    (hx : m.publicKeyJwk.x = "") :
    errorKindOf (get_issuer_public_key resolveDid issuerDid verificationMethodId)
      = some .invalidVerificationMethod := by
  have hkey : findPublicKey ms verificationMethodId = "" := by
    rw [findPublicKey_of_first_match ms verificationMethodId m hfind, hx]
  simp [get_issuer_public_key, hres, hj, hdd, hdoc, hvm, hkey, errorKindOf,
    VadeEvanError.kind]

/-- Witness for C10: the resolved document's only method `#k` matches the
request but its key is the empty string. -/
theorem get_issuer_public_key_empty_key_rejected_witness :
    errorKindOf (get_issuer_public_key resolveEmptyKey "i" "#k")
      = some .invalidVerificationMethod :=
  get_issuer_public_key_empty_key_rejected resolveEmptyKey "i" "#k" responseEmptyKey
    emptyKeyResponseJson emptyKeyDidDocumentJson ⟨some [emptyKeyMethodEntry]⟩
    [emptyKeyMethodEntry] emptyKeyMethodEntry rfl (by decide) (by decide) (by decide) rfl
    (by decide) rfl

/-- C7: whenever the verification pipeline reaches the signature step, the
public key generator is derived for exactly `nquads.length + 1` messages
(`ADDITIONAL_HIDDEN_MESSAGES_COUNT = 1` for the hidden master secret), the
check runs against precisely that generator, and the assembled message list
is the master-secret message at fixed index 0 followed by the hash of each
n-quad in canonical order. -/
theorem verify_credential_message_layout
    (resolveDid : String → Except VadeEvanError String)
    (credentialStr verificationMethodId masterSecret : String)
    (credential : BbsCredentialModel) (nquads : List String) (issuerPubKey : String)
    (h1 : parseBbsCredential credentialStr = .ok credential)
    (h2 : credentialNquads credentialStr = .ok nquads)
    (h3 : get_issuer_public_key resolveDid credential.issuer verificationMethodId
      = .ok issuerPubKey) :
    (∀ pk : BbsPublicKey,
      get_public_key_generator issuerPubKey (nquads.length + 1) = .ok pk →
      verify_credential resolveDid credentialStr verificationMethodId masterSecret
        = verify_proof_signature credential.proof.signature nquads masterSecret pk)
    ∧ (∀ e : VadeEvanError,
      get_public_key_generator issuerPubKey (nquads.length + 1) = .error e →
      verify_credential resolveDid credentialStr verificationMethodId masterSecret = .error e)
    ∧ ∀ m : SignatureMessage,
      verifyProofSignatureMessages m nquads = m :: nquads.map SignatureMessage.hashed := by
  refine ⟨?_, ?_, fun m => verifyProofSignatureMessages_eq m nquads⟩
  · intro pk hgen
    simp [verify_credential, h1, h2, h3, ADDITIONAL_HIDDEN_MESSAGES_COUNT, hgen]
  · intro e hgen
    simp [verify_credential, h1, h2, h3, ADDITIONAL_HIDDEN_MESSAGES_COUNT, hgen]

/-- Witness for C7 on the honestly signed sample credential. -/
theorem verify_credential_message_layout_witness :
    verify_credential sampleResolveDid sampleOriginalCredential "#k" "M"
      = verify_proof_signature sampleSignature sampleSignedNquads "M"
          ⟨"K", sampleSignedNquads.length + 1⟩
    ∧ verifyProofSignatureMessages (SignatureMessage.raw "M") sampleSignedNquads
      = SignatureMessage.raw "M" :: sampleSignedNquads.map SignatureMessage.hashed :=
  ⟨(verify_credential_message_layout sampleResolveDid sampleOriginalCredential "#k" "M"
      ⟨"i", ⟨sampleSignature⟩⟩ sampleSignedNquads "K" (by decide) (by decide) (by decide)).1
      ⟨"K", sampleSignedNquads.length + 1⟩ (by decide),
    (verify_credential_message_layout sampleResolveDid sampleOriginalCredential "#k" "M"
      ⟨"i", ⟨sampleSignature⟩⟩ sampleSignedNquads "K" (by decide) (by decide) (by decide)).2.2
      (SignatureMessage.raw "M")⟩

/-- C1, evaluated at the failing input: tampering with
`credentialSubject.data.bio` after signing makes the scheme's validity check
report `false` (second conjunct), yet `verify_credential` returns `Ok(())`
(first conjunct) because `verify_proof_signature` drops `is_valid` after
`dbg!`. The third conjunct shows the same pipeline on the untampered
credential, confirming the scenario is an honestly signed credential. -/
theorem verify_credential_silent_pass_on_tamper :
    verify_credential sampleResolveDid sampleTamperedCredential "#k" "M" = .ok ()
    ∧ BbsSignature.verify ⟨base64decode sampleSignature⟩
        (verifyProofSignatureMessages (SignatureMessage.raw (base64decode "M"))
          sampleTamperedNquads)
        ⟨"K", sampleTamperedNquads.length + 1⟩ = .ok false
    ∧ verify_credential sampleResolveDid sampleOriginalCredential "#k" "M" = .ok () :=
  ⟨by decide, by decide, by decide⟩
